import Mathlib

/-!
Verification of the error-classification layer of a Podman client library
(`podman/errors/exceptions.py`), shallowly embedded in Lean 4.

Python values are modelled as follows: optional values become `Option`,
`dict[str, str]` becomes an insertion-ordered association list
`List (String × String)`, Python `int` becomes `Int`, and Python truthiness
of optional strings / dicts / ints is made explicit with dedicated helper
functions.  `__str__` methods become pure `str` functions; the object
state they would leave behind is modelled explicitly by `renderM`
functions returning the string together with the post-state.
-/

/-- Truthiness of a Python `Optional[str]`: `None` and `""` are falsy. -/
def pyTruthyOptStr : Option String → Bool
  | none => false
  | some s => s ≠ ""

/-- Truthiness of a Python `Optional[dict]`: `None` and `{}` are falsy. -/
def pyTruthyOptEnv : Option (List (String × String)) → Bool
  | none => false
  | some l => l ≠ []

/-- Python `x or 0` for `x : Optional[int]`: `None` and `0` give `0`. -/
def pyOrZero : Option Int → Int
  | none => 0
  | some v => if v == 0 then 0 else v

/-- Python `f"{x}"` for `x : Optional[int]`. -/
def optIntRepr : Option Int → String
  | none => "None"
  | some v => toString v

/-- HTTP response handle as used by the error layer: exposes
`status_code` and `reason` (`requests.Response` interface). -/
structure PyResponse where
  status_code : Int
  reason : String
deriving DecidableEq, Repr

/-- `APIError(message, response=None, explanation=None)`: wraps HTTP errors.
`HTTPError.__init__` stores `message` as the sole exception argument and
`response` as an attribute; `explanation` is stored by `APIError.__init__`. -/
structure APIError where
  message : String
  response : Option PyResponse
  explanation : Option String
deriving DecidableEq, Repr

/-- `APIError.status_code` property: read from `response` at call time,
`None` when `response` is absent. -/
def APIError.status_code (e : APIError) : Option Int :=
  match e.response with
  | some r => some r.status_code
  | none => none

/-- `APIError.is_client_error`: `400 <= (self.status_code or 0) < 500`. -/
def APIError.is_client_error (e : APIError) : Bool :=
  decide (400 ≤ pyOrZero e.status_code ∧ pyOrZero e.status_code < 500)

/-- `APIError.is_server_error`: `500 <= (self.status_code or 0) < 600`. -/
def APIError.is_server_error (e : APIError) : Bool :=
  decide (500 ≤ pyOrZero e.status_code ∧ pyOrZero e.status_code < 600)

/-- `APIError.is_error`: `self.is_client_error() or self.is_server_error()`. -/
def APIError.is_error (e : APIError) : Bool :=
  e.is_client_error || e.is_server_error

/-- `APIError.__str__`: start from the stored message (`super().__str__()`),
override with `response.reason` when a response is attached, prefix with the
status class when the status code is in the 4xx/5xx range, and append the
explanation when it is truthy. -/
def APIError.str (e : APIError) : String :=
  let msg := e.message
  let msg :=
    match e.response with
    | some r => r.reason
    | none => msg
  let code := optIntRepr e.status_code
  let msg :=
    if e.is_client_error then s!"{code} Client Error: {msg}"
    else if e.is_server_error then s!"{code} Server Error: {msg}"
    else msg
  match e.explanation with
  | some ex => if ex ≠ "" then s!"{msg} ({ex})" else msg
  | none => msg

/-- `class NotFound(APIError)`: resource not found on the Podman service.
No additional attributes or methods. -/
structure NotFound extends APIError
deriving DecidableEq, Repr

/-- `NotFound` inherits `is_error` from `APIError`. -/
def NotFound.is_error (e : NotFound) : Bool :=
  e.toAPIError.is_error

/-- `NotFound` inherits `__str__` from `APIError`. -/
def NotFound.str (e : NotFound) : String :=
  e.toAPIError.str

/-- `class ImageNotFound(APIError)`: image not found on the Podman service.
No additional attributes or methods. -/
structure ImageNotFound extends APIError
deriving DecidableEq, Repr

/-- `ImageNotFound` inherits `is_error` from `APIError`. -/
def ImageNotFound.is_error (e : ImageNotFound) : Bool :=
  e.toAPIError.is_error

/-- `ImageNotFound` inherits `__str__` from `APIError`. -/
def ImageNotFound.str (e : ImageNotFound) : String :=
  e.toAPIError.str

/-- `class BuildError(PodmanError)`: stores `reason` as the exception
argument (so `__str__` returns it) and keeps `msg` and `build_log`. -/
structure BuildError where
  msg : String
  build_log : List String
deriving DecidableEq, Repr

/-- `BuildError(reason, build_log)` constructor. -/
def BuildError.init (reason : String) (build_log : List String) : BuildError :=
  ⟨reason, build_log⟩

/-- `BuildError.__str__` (inherited `Exception.__str__` of the single
argument `reason`). -/
def BuildError.str (e : BuildError) : String :=
  e.msg

/-- Opaque reference to a container domain object; its own state is
managed outside the error layer. -/
structure Container where
  ref : String
deriving DecidableEq, Repr

/-- `class ContainerError(PodmanError)`: `msg` is the composed message
passed to `super().__init__` at construction time; the five inputs are
kept as separate attributes. -/
structure ContainerError where
  msg : String
  container : Container
  exit_status : Int
  command : String
  image : String
  stderr : Option String
deriving DecidableEq, Repr

/-- `ContainerError.__init__(container, exit_status, command, image, stderr)`:
composes `msg` from the f-string in the source and stores all inputs. -/
def ContainerError.init (container : Container) (exit_status : Int)
    (command : String) (image : String) (stderr : Option String) : ContainerError :=
  let err :=
    match stderr with
    | some s => s!": {s}"
    | none => ""
  let msg :=
    s!"Command '{command}' in image '{image}' returned non-zero exit status {exit_status}{err}"
  ⟨msg, container, exit_status, command, image, stderr⟩

/-- `ContainerError.__str__` (inherited `Exception.__str__` of the single
argument, the composed message). -/
def ContainerError.str (e : ContainerError) : String :=
  e.msg

/-- The tuple of variable names kept by `PodmanConnectionError.__str__`,
in source order. -/
def isAllowedKey (k : String) : Bool :=
  k == "DOCKER_HOST" || k == "CONTAINER_HOST" || k == "DOCKER_TLS_VERIFY" ||
    k == "CONTAINER_TLS_VERIFY" || k == "DOCKER_CERT_PATH" || k == "CONTAINER_CERT_PATH"

/-- `class PodmanConnectionError(PodmanError)`: `message` is the exception
argument; `environment`, `host` and `original_error` are attributes.  The
`original_error : Optional[Exception]` is modelled by its rendered string
(`str(original_error)` is all `__str__` uses); an attached exception object
is always truthy regardless of that string. -/
structure PodmanConnectionError where
  message : String
  environment : Option (List (String × String))
  host : Option String
  original_error : Option String
deriving DecidableEq, Repr

/-- `PodmanConnectionError.__str__`: collects segments into a list
(message; `Host: {host}` when `host` is truthy; `Environment:` plus one
`  {key}={value}` entry per allow-listed variable when any survive;
`Caused by: {original_error}` when present) and joins them with `" | "`. -/
def PodmanConnectionError.str (e : PodmanConnectionError) : String :=
  let msg := [e.message]
  let h := e.host.getD ""
  let msg :=
    if pyTruthyOptStr e.host then msg ++ [s!"Host: {h}"] else msg
  let msg :=
    if pyTruthyOptEnv e.environment then
      let relevant_vars := (e.environment.getD []).filter fun kv => isAllowedKey kv.1
      if relevant_vars ≠ [] then
        msg ++ ["Environment:"] ++ relevant_vars.map fun kv => "  " ++ kv.1 ++ "=" ++ kv.2
      else msg
    else msg
  let msg :=
    match e.original_error with
    | some oe => msg ++ [s!"Caused by: {oe}"]
    | none => msg
  String.intercalate " | " msg

/-- `class StreamParseError(RuntimeError)`: stores `reason` as the
exception argument and as `msg`. -/
structure StreamParseError where
  msg : String
deriving DecidableEq, Repr

/-- `StreamParseError.__str__` (inherited `Exception.__str__`). -/
def StreamParseError.str (e : StreamParseError) : String :=
  e.msg

/-- The classes declared in `podman/errors/exceptions.py`, together with
the external bases they extend (`HTTPError` from `requests`, and the
built-in `Exception` and `RuntimeError`). -/
inductive PyClass where
  | exceptionClass
  | runtimeErrorClass
  | httpErrorClass
  | apiError
  | notFound
  | imageNotFound
  | dockerException
  | podmanError
  | buildError
  | containerError
  | invalidArgument
  | podmanConnectionError
  | streamParseError
deriving DecidableEq, Repr

/-- Direct base class of each class, as written in the source
(`class NotFound(APIError)`, `class ImageNotFound(APIError)`, ...). -/
def parentClass : PyClass → Option PyClass
  | .exceptionClass => none
  | .runtimeErrorClass => some .exceptionClass
  | .httpErrorClass => some .exceptionClass
  | .apiError => some .httpErrorClass
  | .notFound => some .apiError
  | .imageNotFound => some .apiError
  | .dockerException => some .exceptionClass
  | .podmanError => some .dockerException
  | .buildError => some .podmanError
  | .containerError => some .podmanError
  | .invalidArgument => some .podmanError
  | .podmanConnectionError => some .podmanError
  | .streamParseError => some .runtimeErrorClass

/-- Ancestor walk with fuel (the hierarchy is finite and acyclic). -/
def isSubclassOfFuel : Nat → PyClass → PyClass → Bool
  | 0, _, _ => false
  | fuel + 1, c, d =>
    if c = d then true
    else
      match parentClass c with
      | some p => isSubclassOfFuel fuel p d
      | none => false

/-- Python `issubclass(c, d)` (reflexive, walks the base chain). -/
def isSubclassOf (c d : PyClass) : Bool :=
  isSubclassOfFuel 20 c d

/-! Spec-side definitions.  These follow the wording of the specification
claims (not the source) and are compared with the source-derived
definitions above in the refinement theorems below. -/

/-- Spec allow-list, written as the two synonym families the spec names:
`{DOCKER_HOST, DOCKER_TLS_VERIFY, DOCKER_CERT_PATH}` and
`{CONTAINER_HOST, CONTAINER_TLS_VERIFY, CONTAINER_CERT_PATH}`. -/
def specAllowedKey (k : String) : Bool :=
  (k == "DOCKER_HOST" || k == "DOCKER_TLS_VERIFY" || k == "DOCKER_CERT_PATH") ||
    (k == "CONTAINER_HOST" || k == "CONTAINER_TLS_VERIFY" || k == "CONTAINER_CERT_PATH")

theorem specAllowedKey_eq (k : String) : specAllowedKey k = isAllowedKey k := by
  simp only [specAllowedKey, isAllowedKey]
  generalize (k == "DOCKER_HOST") = a
  generalize (k == "CONTAINER_HOST") = b
  generalize (k == "DOCKER_TLS_VERIFY") = c
  generalize (k == "CONTAINER_TLS_VERIFY") = d
  generalize (k == "DOCKER_CERT_PATH") = x
  generalize (k == "CONTAINER_CERT_PATH") = y
  revert a b c d x y
  decide

/-- Rendering algorithm exactly as the claim states it: start from
`message`; if a response is present, replace the working message with
`response.reason`; if `isClientError()`, prefix with
`"{statusCode} Client Error: "`; else if `isServerError()`, prefix with
`"{statusCode} Server Error: "`; finally, if `explanation` is PRESENT
(i.e. not `None`), append `" ({explanation})"`. -/
def specAPIRenderPresence (message : String) (response : Option PyResponse)
    (explanation : Option String) : String :=
  let e : APIError := ⟨message, response, explanation⟩
  let working := message
  let working :=
    match response with
    | some r => r.reason
    | none => working
  let code := optIntRepr e.status_code
  let working :=
    if e.is_client_error then s!"{code} Client Error: {working}"
    else if e.is_server_error then s!"{code} Server Error: {working}"
    else working
  match explanation with
  | some ex => s!"{working} ({ex})"
  | none => working

/-- Rendering algorithm as amended: identical to
`specAPIRenderPresence` except that the explanation is appended only when
it is present AND non-empty (truthy). -/
def specAPIRenderTruthy (message : String) (response : Option PyResponse)
    (explanation : Option String) : String :=
  let e : APIError := ⟨message, response, explanation⟩
  let working := message
  let working :=
    match response with
    | some r => r.reason
    | none => working
  let code := optIntRepr e.status_code
  let working :=
    if e.is_client_error then s!"{code} Client Error: {working}"
    else if e.is_server_error then s!"{code} Server Error: {working}"
    else working
  match explanation with
  | some ex => if ex ≠ "" then s!"{working} ({ex})" else working
  | none => working

/-- Connection-error rendering algorithm exactly as the claim states it:
the segments are, in order, the message; `"Host: {host}"` when the host
is PRESENT (i.e. not `None`); when any environment entry survives the
allow-list filter, ONE environment segment consisting of
`"Environment:"` followed by one `"  {key}={value}"` line per surviving
entry in the mapping's iteration order (header and lines newline-joined
into a single segment); and `"Caused by: {originalError}"` when an
original error is present.  The produced segments are joined with
`" | "`. -/
def specConnRenderPresence (message : String)
    (environment : Option (List (String × String))) (host : Option String)
    (originalError : Option String) : String :=
  let hostSegs : List String :=
    match host with
    | some h => [s!"Host: {h}"]
    | none => []
  let entries : List (String × String) :=
    match environment with
    | some env => env
    | none => []
  let surviving : List (String × String) := entries.filter fun kv => specAllowedKey kv.1
  let envSegs : List String :=
    if surviving ≠ [] then
      [String.intercalate "\n"
        ("Environment:" :: surviving.map fun kv => "  " ++ kv.1 ++ "=" ++ kv.2)]
    else []
  let causeSegs : List String :=
    match originalError with
    | some oe => [s!"Caused by: {oe}"]
    | none => []
  String.intercalate " | " ([message] ++ hostSegs ++ envSegs ++ causeSegs)

/-- Connection-error rendering algorithm as amended: the segments are,
in order, the message; `"Host: {host}"` when the host is present and
non-empty; when any environment entry survives the allow-list filter,
a `"Environment:"` segment followed by one `"  {key}={value}"` segment
per surviving entry in the mapping's iteration order; and
`"Caused by: {originalError}"` when an original error is present.  All
segments are joined with `" | "`. -/
def specConnRender (message : String) (environment : Option (List (String × String)))
    (host : Option String) (originalError : Option String) : String :=
  let hostSegs :=
    match host with
    | some h => if h ≠ "" then [s!"Host: {h}"] else []
    | none => []
  let entries : List (String × String) :=
    match environment with
    | some env => env
    | none => []
  let surviving : List (String × String) := entries.filter fun kv => specAllowedKey kv.1
  let envSegs :=
    if surviving ≠ [] then
      "Environment:" :: surviving.map fun kv => "  " ++ kv.1 ++ "=" ++ kv.2
    else []
  let causeSegs :=
    match originalError with
    | some oe => [s!"Caused by: {oe}"]
    | none => []
  String.intercalate " | " ([message] ++ hostSegs ++ envSegs ++ causeSegs)

/-! Rendering with explicit state passing: each `renderM` returns the
rendered string together with the object state after the call.  The
`__str__` bodies only read attributes, so the post-state is the
pre-state unchanged. -/

/-- `APIError.__str__` with its (unchanged) post-state. -/
def APIError.renderM (e : APIError) : String × APIError :=
  (e.str, e)

/-- `PodmanConnectionError.__str__` with its (unchanged) post-state. -/
def PodmanConnectionError.renderM (e : PodmanConnectionError) :
    String × PodmanConnectionError :=
  (e.str, e)

/-- `ContainerError.__str__` with its (unchanged) post-state. -/
def ContainerError.renderM (e : ContainerError) : String × ContainerError :=
  (e.str, e)

/-- `BuildError.__str__` with its (unchanged) post-state. -/
def BuildError.renderM (e : BuildError) : String × BuildError :=
  (e.str, e)

/-- `StreamParseError.__str__` with its (unchanged) post-state. -/
def StreamParseError.renderM (e : StreamParseError) : String × StreamParseError :=
  (e.str, e)

/-- Environment entries that survive the allow-list filter of
`PodmanConnectionError.__str__` (empty for an absent environment). -/
def envFiltered : Option (List (String × String)) → List (String × String)
  | some l => l.filter fun kv => isAllowedKey kv.1
  | none => []

/-! Theorems settling the claims. -/

/-- Helper: `PodmanConnectionError.__str__` is unchanged when the
environment is replaced by its allow-list filtrate. -/
theorem connStr_filter_invariant (m : String) (h o : Option String)
    (env : Option (List (String × String))) :
    PodmanConnectionError.str ⟨m, env, h, o⟩ =
      PodmanConnectionError.str ⟨m, some (envFiltered env), h, o⟩ := by
  cases env <;> cases h <;> cases o <;>
    simp only [PodmanConnectionError.str, envFiltered, pyTruthyOptEnv, pyTruthyOptStr,
      Option.getD, List.filter_filter, Bool.and_self] <;>
    split_ifs <;> simp_all [List.append_assoc, List.filter_filter]

/-- Claim C1, counterexample: the claimed algorithm appends the
explanation whenever it is present, but `APIError.__str__` checks its
truthiness, so a present-but-empty explanation refutes the claim: the
code renders `"404 Client Error: Not Found"` while the claimed algorithm
yields `"404 Client Error: Not Found ()"`. -/
theorem apiError_render_explanation_presence_cex :
    APIError.str ⟨"x", some ⟨404, "Not Found"⟩, some ""⟩ =
        "404 Client Error: Not Found" ∧
    specAPIRenderPresence "x" (some ⟨404, "Not Found"⟩) (some "") =
        "404 Client Error: Not Found ()" ∧
    APIError.str ⟨"x", some ⟨404, "Not Found"⟩, some ""⟩ ≠
      specAPIRenderPresence "x" (some ⟨404, "Not Found"⟩) (some "") :=
  ⟨by rfl, by rfl, by decide⟩

/-- Claim C1, amended: `APIError.__str__` starts from the constructor
message, replaces it with `response.reason` when a response is present,
prefixes the status class for 4xx/5xx codes, and appends
`" ({explanation})"` when the explanation is present AND non-empty;
status 404 with reason `"Not Found"` renders
`"404 Client Error: Not Found"`, and with explanation
`"no such container"` it renders
`"404 Client Error: Not Found (no such container)"`. -/
theorem apiError_render_algorithm (message : String) (response : Option PyResponse)
    (explanation : Option String) :
    APIError.str ⟨message, response, explanation⟩ =
      specAPIRenderTruthy message response explanation ∧
    APIError.str ⟨message, some ⟨404, "Not Found"⟩, none⟩ =
      "404 Client Error: Not Found" ∧
    APIError.str ⟨message, some ⟨404, "Not Found"⟩, some "no such container"⟩ =
      "404 Client Error: Not Found (no such container)" :=
  ⟨by rfl, by rfl, by rfl⟩

/-- Claim C2, counterexample: the claimed algorithm
(`specConnRenderPresence`) is refuted at two concrete inputs.  At the
claim's own example input the code joins the `"Environment:"` header and
every `"  {key}={value}"` line with `" | "` like all other segments,
not as one newline-joined segment.  And with a present-but-empty host
the code emits no `"Host: "` segment (it checks `if self.host:`,
truthiness), while the claimed algorithm emits one for any present
host. -/
theorem connectionError_render_segments_cex :
    PodmanConnectionError.str
        ⟨"cannot connect", some [("DOCKER_HOST", "tcp://x"), ("UNRELATED", "y")],
         some "unix:///var/run/podman.sock", none⟩ =
      "cannot connect | Host: unix:///var/run/podman.sock | Environment: |   DOCKER_HOST=tcp://x" ∧
    specConnRenderPresence "cannot connect"
        (some [("DOCKER_HOST", "tcp://x"), ("UNRELATED", "y")])
        (some "unix:///var/run/podman.sock") none =
      "cannot connect | Host: unix:///var/run/podman.sock | Environment:\n  DOCKER_HOST=tcp://x" ∧
    PodmanConnectionError.str
        ⟨"cannot connect", some [("DOCKER_HOST", "tcp://x"), ("UNRELATED", "y")],
         some "unix:///var/run/podman.sock", none⟩ ≠
      specConnRenderPresence "cannot connect"
        (some [("DOCKER_HOST", "tcp://x"), ("UNRELATED", "y")])
        (some "unix:///var/run/podman.sock") none ∧
    PodmanConnectionError.str ⟨"cannot connect", none, some "", none⟩ = "cannot connect" ∧
    specConnRenderPresence "cannot connect" none (some "") none =
      "cannot connect | Host: " ∧
    PodmanConnectionError.str ⟨"cannot connect", none, some "", none⟩ ≠
      specConnRenderPresence "cannot connect" none (some "") none :=
  ⟨by rfl, by rfl, by decide, by rfl, by rfl, by decide⟩

/-- Claim C2, amended: `PodmanConnectionError.__str__` produces, in fixed
order, the message; `"Host: {host}"` when the host is present and
non-empty; when any environment entry survives the allow-list filter, an
`"Environment:"` segment followed by one `"  {key}={value}"` segment per
surviving entry in the mapping's iteration order; and
`"Caused by: {originalError}"` when present — every segment (environment
header and entry lines included) joined with `" | "`.  At the claim's
example input this renders
`"cannot connect | Host: unix:///var/run/podman.sock | Environment: |   DOCKER_HOST=tcp://x"`. -/
theorem connectionError_render_algorithm (m : String)
    (env : Option (List (String × String))) (h o : Option String) :
    PodmanConnectionError.str ⟨m, env, h, o⟩ = specConnRender m env h o ∧
    PodmanConnectionError.str
        ⟨"cannot connect", some [("DOCKER_HOST", "tcp://x"), ("UNRELATED", "y")],
         some "unix:///var/run/podman.sock", none⟩ =
      "cannot connect | Host: unix:///var/run/podman.sock | Environment: |   DOCKER_HOST=tcp://x" := by
  have hfun : (fun kv : String × String => specAllowedKey kv.1) =
      (fun kv : String × String => isAllowedKey kv.1) := by
    funext kv
    exact specAllowedKey_eq kv.1
  refine ⟨?_, by rfl⟩
  cases env <;> cases h <;> cases o <;>
    simp only [PodmanConnectionError.str, specConnRender, hfun, pyTruthyOptEnv,
      pyTruthyOptStr, Option.getD] <;>
    split_ifs <;> simp_all [List.append_assoc]

/-- Claim C3: the rendered connection error surfaces only allow-listed
environment entries — rendering is unchanged when the environment is
replaced by its allow-list filtrate, and two environments that agree on
their allow-listed entries render identically regardless of any other
entries. -/
theorem connectionError_env_allowlist_noninterference (m : String)
    (h o : Option String) (env env₂ : Option (List (String × String)))
    (hagree : envFiltered env = envFiltered env₂) :
    PodmanConnectionError.str ⟨m, env, h, o⟩ =
        PodmanConnectionError.str ⟨m, some (envFiltered env), h, o⟩ ∧
    PodmanConnectionError.str ⟨m, env, h, o⟩ =
      PodmanConnectionError.str ⟨m, env₂, h, o⟩ := by
  refine ⟨connStr_filter_invariant m h o env, ?_⟩
  rw [connStr_filter_invariant m h o env, connStr_filter_invariant m h o env₂, hagree]

/-- Claim C3, witness: two environments that agree on their allow-listed
entries (one carrying an unrelated secret) render identically. -/
theorem connectionError_env_allowlist_noninterference_witness :
    envFiltered (some [("DOCKER_HOST", "tcp://x"), ("UNRELATED", "y")]) =
        envFiltered (some [("DOCKER_HOST", "tcp://x"), ("AWS_SECRET_KEY", "hunter2")]) ∧
    (PodmanConnectionError.str
          ⟨"cannot connect", some [("DOCKER_HOST", "tcp://x"), ("UNRELATED", "y")],
           some "unix:///var/run/podman.sock", none⟩ =
        PodmanConnectionError.str
          ⟨"cannot connect",
           some (envFiltered (some [("DOCKER_HOST", "tcp://x"), ("UNRELATED", "y")])),
           some "unix:///var/run/podman.sock", none⟩ ∧
      PodmanConnectionError.str
          ⟨"cannot connect", some [("DOCKER_HOST", "tcp://x"), ("UNRELATED", "y")],
           some "unix:///var/run/podman.sock", none⟩ =
        PodmanConnectionError.str
          ⟨"cannot connect", some [("DOCKER_HOST", "tcp://x"), ("AWS_SECRET_KEY", "hunter2")],
           some "unix:///var/run/podman.sock", none⟩) :=
  ⟨by rfl,
    connectionError_env_allowlist_noninterference "cannot connect"
      (some "unix:///var/run/podman.sock") none
      (some [("DOCKER_HOST", "tcp://x"), ("UNRELATED", "y")])
      (some [("DOCKER_HOST", "tcp://x"), ("AWS_SECRET_KEY", "hunter2")]) (by rfl)⟩

/-- Claim C4: for every status code `c`, `is_client_error` holds iff
`400 ≤ c < 500`, `is_server_error` holds iff `500 ≤ c < 600`,
`is_error` is their disjunction, and with no response (status code
absent, treated as `0`) every classifier is false. -/
theorem apiError_status_classification (c : Int) (r m : String) (ex : Option String) :
    (APIError.mk m (some ⟨c, r⟩) ex).is_client_error = decide (400 ≤ c ∧ c < 500) ∧
    (APIError.mk m (some ⟨c, r⟩) ex).is_server_error = decide (500 ≤ c ∧ c < 600) ∧
    (APIError.mk m (some ⟨c, r⟩) ex).is_error =
      ((APIError.mk m (some ⟨c, r⟩) ex).is_client_error ||
        (APIError.mk m (some ⟨c, r⟩) ex).is_server_error) ∧
    (APIError.mk m none ex).status_code = none ∧
    (APIError.mk m none ex).is_client_error = false ∧
    (APIError.mk m none ex).is_server_error = false ∧
    (APIError.mk m none ex).is_error = false := by
  refine ⟨?_, ?_, rfl, rfl, rfl, rfl, rfl⟩ <;>
    simp only [APIError.is_client_error, APIError.is_server_error, APIError.status_code,
      pyOrZero] <;>
    rcases eq_or_ne c 0 with hc | hc <;>
    first
      | (subst hc; simp)
      | simp [hc]

/-- Claim C5: `ContainerError` composes
`"Command '{command}' in image '{image}' returned non-zero exit status
{exitStatus}"` (plus `": {stderr}"` when stderr is present) at
construction time, keeps all five inputs as readable fields, and its
rendering reads only the stored message — mutating the stored
`exit_status` afterwards does not change the rendering.  The claim's two
example constructions render as stated. -/
theorem containerError_message_composition (container : Container) (exit_status : Int)
    (command image : String) (stderr : Option String) (hnz : exit_status ≠ 0) :
    ContainerError.str (ContainerError.init container exit_status command image stderr) =
      "Command '" ++ command ++ "' in image '" ++ image ++
        "' returned non-zero exit status " ++ toString exit_status ++
        (match stderr with
         | some s => ": " ++ s
         | none => "") ∧
    (ContainerError.init container exit_status command image stderr).container = container ∧
    (ContainerError.init container exit_status command image stderr).exit_status =
      exit_status ∧
    (ContainerError.init container exit_status command image stderr).command = command ∧
    (ContainerError.init container exit_status command image stderr).image = image ∧
    (ContainerError.init container exit_status command image stderr).stderr = stderr ∧
    ContainerError.str
        { ContainerError.init container exit_status command image stderr with
            exit_status := exit_status + 1 } =
      ContainerError.str (ContainerError.init container exit_status command image stderr) ∧
    ContainerError.str (ContainerError.init ⟨"c"⟩ 1 "echo hi" "alpine" none) =
      "Command 'echo hi' in image 'alpine' returned non-zero exit status 1" ∧
    ContainerError.str (ContainerError.init ⟨"c"⟩ 1 "echo hi" "alpine" (some "boom")) =
      "Command 'echo hi' in image 'alpine' returned non-zero exit status 1: boom" := by
  refine ⟨?_, rfl, rfl, rfl, rfl, rfl, rfl, by rfl, by rfl⟩
  cases stderr <;>
    simp [ContainerError.init, ContainerError.str, String.append_assoc, toString,
      String.append_empty]

/-- Claim C5, witness: the composition theorem instantiated at a concrete
non-zero exit status. -/
theorem containerError_message_composition_witness :
    (2 : Int) ≠ 0 ∧
    (ContainerError.str (ContainerError.init ⟨"c0"⟩ 2 "ls" "fedora" none) =
        "Command '" ++ "ls" ++ "' in image '" ++ "fedora" ++
          "' returned non-zero exit status " ++ toString (2 : Int) ++
          (match (none : Option String) with
           | some s => ": " ++ s
           | none => "") ∧
      (ContainerError.init ⟨"c0"⟩ 2 "ls" "fedora" none).container = ⟨"c0"⟩ ∧
      (ContainerError.init ⟨"c0"⟩ 2 "ls" "fedora" none).exit_status = 2 ∧
      (ContainerError.init ⟨"c0"⟩ 2 "ls" "fedora" none).command = "ls" ∧
      (ContainerError.init ⟨"c0"⟩ 2 "ls" "fedora" none).image = "fedora" ∧
      (ContainerError.init ⟨"c0"⟩ 2 "ls" "fedora" none).stderr = none ∧
      ContainerError.str
          { ContainerError.init ⟨"c0"⟩ 2 "ls" "fedora" none with exit_status := 2 + 1 } =
        ContainerError.str (ContainerError.init ⟨"c0"⟩ 2 "ls" "fedora" none) ∧
      ContainerError.str (ContainerError.init ⟨"c"⟩ 1 "echo hi" "alpine" none) =
        "Command 'echo hi' in image 'alpine' returned non-zero exit status 1" ∧
      ContainerError.str (ContainerError.init ⟨"c"⟩ 1 "echo hi" "alpine" (some "boom")) =
        "Command 'echo hi' in image 'alpine' returned non-zero exit status 1: boom") :=
  ⟨by decide, containerError_message_composition ⟨"c0"⟩ 2 "ls" "fedora" none (by decide)⟩

/-- Claim C6: with no response, `APIError` renders exactly as its
message, the status code is absent, and neither classifier holds. -/
theorem apiError_no_response_renders_message (m : String) (ex : Option String) :
    APIError.str ⟨m, none, none⟩ = m ∧
    (APIError.mk m none ex).status_code = none ∧
    (APIError.mk m none ex).is_client_error = false ∧
    (APIError.mk m none ex).is_server_error = false :=
  ⟨rfl, rfl, rfl, rfl⟩

/-- Claim C7: `NotFound` and `ImageNotFound` are subclasses of `APIError`
and, constructed with any 4xx/5xx response, report `is_error`. -/
theorem notFound_imageNotFound_transport_errors (m r : String) (ex : Option String)
    (c : Int) (h4 : 400 ≤ c) (h6 : c < 600) :
    (NotFound.mk ⟨m, some ⟨c, r⟩, ex⟩).is_error = true ∧
    (ImageNotFound.mk ⟨m, some ⟨c, r⟩, ex⟩).is_error = true ∧
    isSubclassOf .notFound .apiError = true ∧
    isSubclassOf .imageNotFound .apiError = true := by
  have hc : c ≠ 0 := by omega
  refine ⟨?_, ?_, by decide, by decide⟩ <;>
    · simp only [NotFound.is_error, ImageNotFound.is_error, APIError.is_error,
        APIError.is_client_error, APIError.is_server_error, APIError.status_code, pyOrZero,
        Bool.or_eq_true, decide_eq_true_eq]
      simp [hc]
      omega

/-- Claim C7, witness: a 404 response makes both not-found types report
`is_error`. -/
theorem notFound_imageNotFound_transport_errors_witness :
    ((400 : Int) ≤ 404 ∧ (404 : Int) < 600) ∧
    ((NotFound.mk ⟨"m", some ⟨404, "Not Found"⟩, none⟩).is_error = true ∧
      (ImageNotFound.mk ⟨"m", some ⟨404, "Not Found"⟩, none⟩).is_error = true ∧
      isSubclassOf .notFound .apiError = true ∧
      isSubclassOf .imageNotFound .apiError = true) :=
  ⟨by decide,
    notFound_imageNotFound_transport_errors "m" "Not Found" none 404 (by decide) (by decide)⟩

/-- Claim C8: rendering is deterministic and side-effect-free for every
error type — `renderM` leaves the state unchanged, and rendering the
post-state again yields the identical string. -/
theorem error_rendering_pure_idempotent (a : APIError) (p : PodmanConnectionError)
    (ce : ContainerError) (b : BuildError) (sp : StreamParseError) :
    ((APIError.renderM a).2 = a ∧
      (APIError.renderM (APIError.renderM a).2).1 = (APIError.renderM a).1) ∧
    ((PodmanConnectionError.renderM p).2 = p ∧
      (PodmanConnectionError.renderM (PodmanConnectionError.renderM p).2).1 =
        (PodmanConnectionError.renderM p).1) ∧
    ((ContainerError.renderM ce).2 = ce ∧
      (ContainerError.renderM (ContainerError.renderM ce).2).1 =
        (ContainerError.renderM ce).1) ∧
    ((BuildError.renderM b).2 = b ∧
      (BuildError.renderM (BuildError.renderM b).2).1 = (BuildError.renderM b).1) ∧
    ((StreamParseError.renderM sp).2 = sp ∧
      (StreamParseError.renderM (StreamParseError.renderM sp).2).1 =
        (StreamParseError.renderM sp).1) :=
  ⟨⟨rfl, rfl⟩, ⟨rfl, rfl⟩, ⟨rfl, rfl⟩, ⟨rfl, rfl⟩, ⟨rfl, rfl⟩⟩

/-- Claim C9: an `APIError` whose explanation is the empty string renders
identically to one whose explanation is absent — the rendering checks
truthiness, not presence. -/
theorem apiError_empty_explanation_no_suffix (m : String) (resp : Option PyResponse) :
    APIError.str ⟨m, resp, some ""⟩ = APIError.str ⟨m, resp, none⟩ := by
  rfl

/-- Claim C10: `ImageNotFound` is declared directly on `APIError` and is
not a subclass of `NotFound` (nor vice versa), so type-based dispatch on
`NotFound` never matches an `ImageNotFound` instance. -/
theorem imageNotFound_not_notFound_subclass :
    parentClass .imageNotFound = some .apiError ∧
    isSubclassOf .imageNotFound .apiError = true ∧
    isSubclassOf .imageNotFound .notFound = false ∧
    isSubclassOf .notFound .imageNotFound = false := by
  decide
